import Mathlib

set_option autoImplicit false
set_option maxRecDepth 8192

/-!
Shallow embedding of the similarity-search request pipeline of
src/app/api/search/route.ts (Next.js API route of the image-similarity-app).

The route forwards queries to an external Python service (CLIP + FAISS).
That service is modelled as an oracle (`Backend`): for each request payload it
yields an outcome (parsed JSON, HTTP error response, or network error) together
with a duration in milliseconds, which feeds the abort-controller timeout logic
of `callPythonService`.  All orchestrator-side control flow — validation,
dispatch on the JSON body fields, error propagation, result mapping — is
translated directly from the TypeScript source.  Each modelled handler also
returns the list of service calls it issued, so that claims of the form
"the provider is never called" are statements about the trace.

JSON numbers (similarity scores, embedding components) are only ever copied by
the route, never computed with, so they are represented by `Int`.
-/

namespace ImageSimilarityApp

/-- JSON numeric values carried through the route verbatim (no arithmetic is
performed on them by the orchestrator). -/
abbrev Num := Int

/-- Entry of the Python service response to POST /search: the route reads
result.index, result.filename and result.similarity. -/
structure PySearchResult where
  index : Nat
  filename : String
  similarity : Num
deriving Repr, DecidableEq

/-- Parsed JSON body of a successful POST /search response: the route reads
searchResponse.results (possibly absent, hence Option) and
searchResponse.total_results. -/
structure PySearchResponse where
  results : Option (List PySearchResult)
  total_results : Int
deriving Repr, DecidableEq

/-- Parsed JSON body of a successful POST /embed/image or /embed/text
response: the route only reads embedResponse.embedding and treats a missing
(falsy) field as failure. -/
structure EmbedResponse where
  embedding : Option (List Num)
deriving Repr, DecidableEq

/-- Outcome of one fetch to the Python service, before the route's
callPythonService wrapper interprets it: a parsed JSON value when
response.ok, an HTTP error response (status, statusText, body text)
when not response.ok, or a thrown network/parse error. -/
inductive FetchOutcome (α : Type) where
  | ok (v : α)
  | httpError (status : Nat) (statusText : String) (body : String)
  | netError (msg : String)
deriving Repr, DecidableEq

/-- One service call as the oracle resolves it: how long the fetch takes
(milliseconds) and what it produces.  The duration drives the abort-controller
timeout in callPythonService. -/
structure ServiceCall (α : Type) where
  duration : Nat
  outcome : FetchOutcome α
deriving Repr, DecidableEq

/-- Oracle for the external Python service: the responses it would give to the
three POST endpoints the route uses (/embed/image, /embed/text, /search). -/
structure Backend where
  embedImage : String → ServiceCall EmbedResponse
  embedText : String → ServiceCall EmbedResponse
  searchIndex : List Num → ServiceCall PySearchResponse

/-- Default of const API_TIMEOUT = parseInt(process.env.API_TIMEOUT or 30000). -/
def API_TIMEOUT : Nat := 30000

/-- Default of const MAX_FILE_SIZE = parseInt(process.env.MAX_IMAGE_SIZE or 10485760). -/
def MAX_FILE_SIZE : Nat := 10485760

/-- Constant ALLOWED_IMAGE_TYPES of the route. -/
def ALLOWED_IMAGE_TYPES : List String := ["image/jpeg", "image/png", "image/webp"]

/-- Model of async function callPythonService: a timer aborts the fetch after
timeout ms (the AbortError is rewritten to "Request timeout"); a non-ok HTTP
response is turned into an error string that interpolates status, statusText
and the response body verbatim; other thrown errors propagate unchanged.
Returns the result together with the elapsed time of the call. -/
def callPythonService {α : Type} (timeout : Nat) (c : ServiceCall α) :
    Except String α × Nat :=
  if timeout ≤ c.duration then
    (Except.error "Request timeout", timeout)
  else
    match c.outcome with
    | FetchOutcome.ok v => (Except.ok v, c.duration)
    | FetchOutcome.httpError s st b =>
        (Except.error ("Python service error: " ++ toString s ++ " " ++ st ++ " - " ++ b),
         c.duration)
    | FetchOutcome.netError m => (Except.error m, c.duration)

/-- Metadata object attached to each mapped result in the route. -/
structure ResultMetadata where
  filename : String
  size : Nat
  uploadedAt : String
deriving Repr, DecidableEq

/-- Interface SearchResult of src/types/index.ts as populated by the route. -/
structure SearchResult where
  id : String
  imageUrl : String
  similarity : Num
  metadata : ResultMetadata
deriving Repr, DecidableEq

/-- Interface SearchResponse of the route (the orchestrator outcome handed to
the boundary). -/
structure SearchResponse where
  success : Bool
  results : List SearchResult
  totalResults : Int
  searchTime : Nat
  error : Option String
  queryType : String
deriving Repr, DecidableEq

/-- Abstraction of new Date().toISOString(): an injective rendering of the
current clock value (milliseconds). -/
def toISOString (t : Nat) : String := toString t

/-- Trace element: one request the route issued to the Python service. -/
inductive Call where
  | embedImage (imageData : String)
  | embedText (text : String)
  | searchIndex (embedding : List Num)
deriving Repr, DecidableEq

/-- CDN base used for imageUrl by the image and embedding pipelines. -/
def CDN_BASE : String := "https://drive.charpstar.net/indexing-test/images/"

/-- Relative base used for imageUrl by the text pipeline. -/
def API_IMAGE_BASE : String := "/api/images/"

/-- Result-mapping step shared by the three pipelines:
(searchResponse.results or []).map of the object literal in the route, with
uploadedAt stamped from the clock at mapping time. -/
def mapResults (base : String) (now : Nat) (rs : List PySearchResult) :
    List SearchResult :=
  rs.map fun r =>
    { id := toString r.index
      imageUrl := base ++ r.filename
      similarity := r.similarity
      metadata := { filename := r.filename, size := 0, uploadedAt := toISOString now } }

/-- Failure object built in each catch block of the route: success false,
empty results, zero totalResults, the caught error message. -/
def failureResponse (elapsed : Nat) (msg : String) (qt : String) : SearchResponse :=
  { success := false
    results := []
    totalResults := 0
    searchTime := elapsed
    error := some msg
    queryType := qt }

/-- Model of async function searchWithImage: embed the image, then search the
index with the returned embedding; any thrown error is caught and returned as
a failure response.  The second component is the trace of service calls. -/
def searchWithImage (be : Backend) (startTime : Nat) (imageData : String) :
    SearchResponse × List Call :=
  match callPythonService API_TIMEOUT (be.embedImage imageData) with
  | (Except.error e, d1) =>
      (failureResponse d1 e "image", [Call.embedImage imageData])
  | (Except.ok er, d1) =>
      match er.embedding with
      | none =>
          (failureResponse d1 "Failed to generate image embedding" "image",
           [Call.embedImage imageData])
      | some emb =>
          match callPythonService API_TIMEOUT (be.searchIndex emb) with
          | (Except.error e, d2) =>
              (failureResponse (d1 + d2) e "image",
               [Call.embedImage imageData, Call.searchIndex emb])
          | (Except.ok sr, d2) =>
              ({ success := true
                 results := mapResults CDN_BASE (startTime + d1 + d2) (sr.results.getD [])
                 totalResults := sr.total_results
                 searchTime := d1 + d2
                 error := none
                 queryType := "image" },
               [Call.embedImage imageData, Call.searchIndex emb])

/-- Model of async function searchWithText, mirrored from the source the same
way as searchWithImage (the only differences in the source are the embed
endpoint, the imageUrl base and the queryType tag). -/
def searchWithText (be : Backend) (startTime : Nat) (text : String) :
    SearchResponse × List Call :=
  match callPythonService API_TIMEOUT (be.embedText text) with
  | (Except.error e, d1) =>
      (failureResponse d1 e "text", [Call.embedText text])
  | (Except.ok er, d1) =>
      match er.embedding with
      | none =>
          (failureResponse d1 "Failed to generate text embedding" "text",
           [Call.embedText text])
      | some emb =>
          match callPythonService API_TIMEOUT (be.searchIndex emb) with
          | (Except.error e, d2) =>
              (failureResponse (d1 + d2) e "text",
               [Call.embedText text, Call.searchIndex emb])
          | (Except.ok sr, d2) =>
              ({ success := true
                 results := mapResults API_IMAGE_BASE (startTime + d1 + d2) (sr.results.getD [])
                 totalResults := sr.total_results
                 searchTime := d1 + d2
                 error := none
                 queryType := "text" },
               [Call.embedText text, Call.searchIndex emb])

/-- Model of async function searchWithEmbedding: the provided vector is passed
to the index search directly, with no validation of its length. -/
def searchWithEmbedding (be : Backend) (startTime : Nat) (embedding : List Num) :
    SearchResponse × List Call :=
  match callPythonService API_TIMEOUT (be.searchIndex embedding) with
  | (Except.error e, d) =>
      (failureResponse d e "embedding", [Call.searchIndex embedding])
  | (Except.ok sr, d) =>
      ({ success := true
         results := mapResults CDN_BASE (startTime + d) (sr.results.getD [])
         totalResults := sr.total_results
         searchTime := d
         error := none
         queryType := "embedding" },
       [Call.searchIndex embedding])

/-- JSON values as far as the POST handler inspects them: it tests fields for
JavaScript truthiness, for typeof string, and with Array.isArray.  null and
undefined coincide on all three tests and are merged into nullv; arrays carry
the numeric payload the route would forward. -/
inductive JVal where
  | str (s : String)
  | num (n : Int)
  | arr (xs : List Num)
  | boolv (b : Bool)
  | nullv
deriving Repr, DecidableEq

/-- JavaScript truthiness of the values above (an absent field reads as
undefined, i.e. nullv). -/
def JVal.truthy : JVal → Bool
  | JVal.str s => !(s == "")
  | JVal.num n => !(n == 0)
  | JVal.arr _ => true
  | JVal.boolv b => b
  | JVal.nullv => false

/-- Test typeof v === "string". -/
def JVal.isStr : JVal → Bool
  | JVal.str _ => true
  | _ => false

/-- String payload of a JSON value (meaningful when isStr holds). -/
def JVal.asString : JVal → String
  | JVal.str s => s
  | _ => ""

/-- Test Array.isArray, returning the array payload when it holds. -/
def JVal.asArray : JVal → Option (List Num)
  | JVal.arr xs => some xs
  | _ => none

/-- Model of the JavaScript String.prototype.trim called on the text field:
strip leading and trailing whitespace. -/
def jsTrim (s : String) : String :=
  String.mk (((s.data.dropWhile Char.isWhitespace).reverse.dropWhile Char.isWhitespace).reverse)

/-- Parsed JSON request body: the three optional fields the POST handler
looks at (body.text, body.image_data, body.embedding). -/
structure JsonBody where
  text : Option JVal
  image_data : Option JVal
  embedding : Option JVal
deriving Repr, DecidableEq

/-- Reading a possibly absent field yields undefined (merged with null). -/
def jfield (o : Option JVal) : JVal := o.getD JVal.nullv

/-- File value obtained from formData.get("image"): the route reads its size
and MIME type, and base64-encodes its bytes.  content stands for the base64
payload of the bytes (the encoding itself is not modelled). -/
structure FileData where
  size : Nat
  mime : String
  content : String
deriving Repr, DecidableEq

/-- Model of function validateImageFile: size bound first, then MIME
allow-list. -/
def validateImageFile (f : FileData) : Bool × Option String :=
  if MAX_FILE_SIZE < f.size then
    (false, some ("File size must be less than " ++
      toString (MAX_FILE_SIZE / 1024 / 1024) ++ "MB"))
  else if !(ALLOWED_IMAGE_TYPES.contains f.mime) then
    (false, some "Only JPEG, PNG, and WebP images are allowed")
  else
    (true, none)

/-- Model of async function imageToBase64: builds the data URL from the MIME
type and the base64 payload. -/
def imageToBase64 (f : FileData) : String :=
  "data:" ++ f.mime ++ ";base64," ++ f.content

/-- Body of the JSON response the POST handler sends: either one of its
inline objects with success false and an error string, or a full
SearchResponse from a pipeline. -/
inductive RespBody where
  | simpleError (error : String)
  | searchResp (r : SearchResponse)
deriving Repr, DecidableEq

/-- HTTP response of the POST handler: status code and JSON body. -/
structure HttpResponse where
  status : Nat
  body : RespBody
deriving Repr, DecidableEq

/-- Shared tail of every pipeline branch of POST: 200 with the result when it
succeeded, 500 with the same result otherwise. -/
def finishSearch (p : SearchResponse × List Call) : HttpResponse × List Call :=
  if p.1.success then ({ status := 200, body := RespBody.searchResp p.1 }, p.2)
  else ({ status := 500, body := RespBody.searchResp p.1 }, p.2)

/-- Model of the application/json arm of the POST handler: dispatch on the
truthiness of body.text, body.image_data, body.embedding in that order, with
the per-variant validation of the source. -/
def handleJson (be : Backend) (startTime : Nat) (body : JsonBody) :
    HttpResponse × List Call :=
  if (jfield body.text).truthy then
    let text := jfield body.text
    if !text.isStr || (jsTrim text.asString).length == 0 then
      ({ status := 400, body := RespBody.simpleError "Text query is required" }, [])
    else if 1000 < text.asString.length then
      ({ status := 400,
         body := RespBody.simpleError "Text query too long (max 1000 characters)" }, [])
    else
      finishSearch (searchWithText be startTime (jsTrim text.asString))
  else if (jfield body.image_data).truthy then
    let im := jfield body.image_data
    if !im.isStr then
      ({ status := 400, body := RespBody.simpleError "Image data is required" }, [])
    else
      finishSearch (searchWithImage be startTime im.asString)
  else if (jfield body.embedding).truthy then
    match (jfield body.embedding).asArray with
    | none =>
        ({ status := 400,
           body := RespBody.simpleError "Valid embedding array is required" }, [])
    | some v => finishSearch (searchWithEmbedding be startTime v)
  else
    ({ status := 400,
       body := RespBody.simpleError "Either text, image_data, or embedding is required" }, [])

/-- Model of the multipart/form-data arm of the POST handler: presence check,
validateImageFile, then the image pipeline on the data URL. -/
def handleMultipart (be : Backend) (startTime : Nat) (file : Option FileData) :
    HttpResponse × List Call :=
  match file with
  | none => ({ status := 400, body := RespBody.simpleError "No image file provided" }, [])
  | some f =>
      let v := validateImageFile f
      if !v.1 then
        ({ status := 400, body := RespBody.simpleError (v.2.getD "") }, [])
      else
        finishSearch (searchWithImage be startTime (imageToBase64 f))

/-- Incoming request as far as the POST handler discriminates it: a multipart
form (with its image file, when present), a parsed JSON body, or any other
content type. -/
inductive Request where
  | multipart (file : Option FileData)
  | json (body : JsonBody)
  | other
deriving Repr, DecidableEq

/-- Model of export async function POST, dispatching on the content type. -/
def POST (be : Backend) (startTime : Nat) (req : Request) : HttpResponse × List Call :=
  match req with
  | Request.multipart f => handleMultipart be startTime f
  | Request.json b => handleJson be startTime b
  | Request.other =>
      ({ status := 400,
         body := RespBody.simpleError
           "Unsupported content type. Use multipart/form-data for images or application/json for text queries." },
       [])

/-- Test whether a trace element is a call to an embedding endpoint. -/
def isEmbedCall : Call → Bool
  | Call.embedImage _ => true
  | Call.embedText _ => true
  | Call.searchIndex _ => false

/-- Test whether a trace element is a call to the index search endpoint. -/
def isSearchCall : Call → Bool
  | Call.searchIndex _ => true
  | _ => false

/-- Failure of the embedding step as the route perceives it: the service call
threw (timeout, HTTP error, network error) or returned a body whose embedding
field is absent. -/
def embedStepFailed (r : Except String EmbedResponse) : Prop :=
  match r with
  | Except.error _ => True
  | Except.ok er => er.embedding = none

/-- Service call whose network-level error message, if any, is non-empty.
Messages the route itself constructs are non-empty by construction; this
hypothesis excludes only a degenerate oracle that throws an Error with an
empty message. -/
def cleanCall {α : Type} (c : ServiceCall α) : Prop :=
  match c.outcome with
  | FetchOutcome.netError m => m ≠ ""
  | _ => True

/-- Backend all of whose network-level error messages are non-empty. -/
def cleanBackend (be : Backend) : Prop :=
  (∀ s, cleanCall (be.embedImage s)) ∧
  (∀ s, cleanCall (be.embedText s)) ∧
  (∀ v, cleanCall (be.searchIndex v))

/-- Substring containment on strings, used to state what the client-visible
error text carries. -/
def containsStr (s sub : String) : Prop :=
  List.IsInfix sub.toList s.toList

instance containsStrDecidable (s sub : String) : Decidable (containsStr s sub) :=
  inferInstanceAs (Decidable (List.IsInfix sub.toList s.toList))

/-- Time-independent projection of a result record: everything except the
uploadedAt clock stamp. -/
def stripTime (r : SearchResult) : String × String × Num × String × Nat :=
  (r.id, r.imageUrl, r.similarity, r.metadata.filename, r.metadata.size)

/-- The queryType the boundary reports, when the response body came from a
pipeline. -/
def respQueryType (r : HttpResponse) : Option String :=
  match r.body with
  | RespBody.searchResp sr => some sr.queryType
  | RespBody.simpleError _ => none

/-- Trace containing no call to the index search endpoint. -/
def noSearchCalls (tr : List Call) : Bool :=
  tr.all fun c => !isSearchCall c

/-- Number of embedding calls in a trace. -/
def countEmbedCalls (tr : List Call) : Nat :=
  tr.countP fun c => isEmbedCall c

/-- Number of index-search calls in a trace. -/
def countSearchCalls (tr : List Call) : Nat :=
  tr.countP fun c => isSearchCall c

/-- Concrete healthy oracle: embeddings succeed quickly and the index returns
one hit.  Used to instantiate universally quantified theorems. -/
def beOK : Backend where
  embedImage := fun _ => { duration := 5, outcome := FetchOutcome.ok { embedding := some [1, 2] } }
  embedText := fun _ => { duration := 5, outcome := FetchOutcome.ok { embedding := some [3, 4] } }
  searchIndex := fun _ =>
    { duration := 7
      outcome := FetchOutcome.ok
        { results := some [{ index := 0, filename := "cat.jpg", similarity := 9 }]
          total_results := 1 } }

/-- Concrete oracle whose calls each finish just under the per-call timeout. -/
def slowBackend : Backend where
  embedImage := fun _ => { duration := 29999, outcome := FetchOutcome.ok { embedding := some [1] } }
  embedText := fun _ => { duration := 29999, outcome := FetchOutcome.ok { embedding := some [1] } }
  searchIndex := fun _ =>
    { duration := 29999
      outcome := FetchOutcome.ok { results := some [], total_results := 0 } }

/-- Concrete oracle whose embed calls exceed the timeout. -/
def stalledBackend : Backend where
  embedImage := fun _ => { duration := 30000, outcome := FetchOutcome.ok { embedding := some [1] } }
  embedText := fun _ => { duration := 30000, outcome := FetchOutcome.ok { embedding := some [1] } }
  searchIndex := fun _ =>
    { duration := 30000
      outcome := FetchOutcome.ok { results := some [], total_results := 0 } }

/-- Concrete oracle whose index search answers with an HTTP 500 whose body is
a Python traceback fragment naming a server-side file path. -/
def leakyBackend : Backend where
  embedImage := fun _ => { duration := 5, outcome := FetchOutcome.ok { embedding := some [1] } }
  embedText := fun _ => { duration := 5, outcome := FetchOutcome.ok { embedding := some [1] } }
  searchIndex := fun _ =>
    { duration := 5
      outcome := FetchOutcome.httpError 500 "Internal Server Error"
        "Traceback, File /app/main.py line 42" }

/-- Identifier the route derives from a backend tuple: result.index.toString(). -/
def pyId (r : PySearchResult) : String := toString r.index

/-- Concrete text query of 1001 characters, one over the route's limit. -/
def longText : String := String.mk (List.replicate 1001 'a')

/-- Concrete upload one byte over the configured maximum size. -/
def bigFile : FileData := { size := 10485761, mime := "image/png", content := "x" }

/-- Concrete small upload with a MIME type outside the allow-list. -/
def badMimeFile : FileData := { size := 4, mime := "image/gif", content := "x" }

/-- Concrete oracle failing every endpoint with a network error. -/
def allFailBackend : Backend where
  embedImage := fun _ => { duration := 3, outcome := FetchOutcome.netError "boom" }
  embedText := fun _ => { duration := 3, outcome := FetchOutcome.netError "boom" }
  searchIndex := fun _ => { duration := 3, outcome := FetchOutcome.netError "boom" }

/-- Concrete oracle whose embed endpoints answer quickly but without an
embedding field. -/
def noEmbedBackend : Backend where
  embedImage := fun _ => { duration := 4, outcome := FetchOutcome.ok { embedding := none } }
  embedText := fun _ => { duration := 4, outcome := FetchOutcome.ok { embedding := none } }
  searchIndex := fun _ =>
    { duration := 4
      outcome := FetchOutcome.ok { results := some [], total_results := 0 } }

/-- Concrete oracle whose embedding endpoints throw a network error. -/
def embedFailBackend : Backend where
  embedImage := fun _ => { duration := 3, outcome := FetchOutcome.netError "connect ECONNREFUSED" }
  embedText := fun _ => { duration := 3, outcome := FetchOutcome.netError "connect ECONNREFUSED" }
  searchIndex := fun _ =>
    { duration := 7
      outcome := FetchOutcome.ok { results := some [], total_results := 0 } }

/-! Helper lemmas shared by several claims. -/

theorem callPythonService_elapsed_le {α : Type} (timeout : Nat) (c : ServiceCall α) :
    (callPythonService timeout c).2 ≤ timeout := by
  unfold callPythonService
  split
  · exact Nat.le_refl timeout
  · next h =>
    cases c.outcome <;> simp <;> omega

/-- C1: a text query that is the empty string or whitespace-only is rejected
with an HTTP 400 validation response before any expensive call: the handler
issues no request at all to the Python service, so no call reaches the
embedding provider. -/
theorem blank_text_rejected_before_embedding
    (be : Backend) (t : Nat) (body : JsonBody) (s : String)
    (htext : body.text = some (JVal.str s))
    (hblank : jsTrim s = "")
    (himg : (jfield body.image_data).truthy = false)
    (hemb : (jfield body.embedding).truthy = false) :
    (handleJson be t body).1.status = 400 ∧ (handleJson be t body).2 = [] := by
  have hf : jfield body.text = JVal.str s := by rw [htext]; rfl
  by_cases h0 : s = ""
  · subst h0
    have htr : (JVal.str "").truthy = false := rfl
    simp [handleJson, hf, htr, himg, hemb]
  · have htr : (JVal.str s).truthy = true := by
      simp [JVal.truthy, h0]
    have hlen : (jsTrim ((JVal.str s).asString)).length = 0 := by
      show (jsTrim s).length = 0
      rw [hblank]
      rfl
    simp [handleJson, hf, htr, JVal.isStr, hlen]

/-- Witness for C1 at the whitespace-only query. -/
theorem blank_text_rejected_before_embedding_witness :
    (handleJson beOK 0
        { text := some (JVal.str " "), image_data := none, embedding := none }).1.status = 400 ∧
    (handleJson beOK 0
        { text := some (JVal.str " "), image_data := none, embedding := none }).2 = [] :=
  blank_text_rejected_before_embedding beOK 0
    { text := some (JVal.str " "), image_data := none, embedding := none } " "
    rfl (by decide) (by decide) (by decide)

theorem finishSearch_calls (p : SearchResponse × List Call) :
    (finishSearch p).2 = p.2 := by
  unfold finishSearch
  split <;> rfl

theorem searchWithEmbedding_trace (be : Backend) (t : Nat) (v : List Num) :
    (searchWithEmbedding be t v).2 = [Call.searchIndex v] := by
  unfold searchWithEmbedding
  rcases hc : callPythonService API_TIMEOUT (be.searchIndex v) with ⟨r, d⟩
  cases r <;> rfl

/-- C2 counterexample: the spec takes the embedding dimension D to be 512; a
raw embedding query of length 511 is nevertheless accepted by the handler,
forwarded verbatim to the index search, and (the backend succeeding) answered
with HTTP 200.  No dimension validation exists and no DimensionMismatchError
is ever produced. -/
theorem wrong_dimension_embedding_reaches_index :
    (handleJson beOK 0
        { text := none, image_data := none,
          embedding := some (JVal.arr (List.replicate 511 1)) }).2 =
      [Call.searchIndex (List.replicate 511 1)] ∧
    (handleJson beOK 0
        { text := none, image_data := none,
          embedding := some (JVal.arr (List.replicate 511 1)) }).1.status = 200 := by
  exact ⟨rfl, rfl⟩

/-- C2 amended: the handler performs no dimension validation on a raw
embedding query.  Whatever the length of the supplied array — matching the
index dimension or not — the vector is forwarded unchanged to the index
search, so the index is always queried and any mismatch surfaces only as a
backend failure, never as an orchestrator-side DimensionMismatchError. -/
theorem embedding_forwarded_without_dimension_check
    (be : Backend) (t : Nat) (body : JsonBody) (v : List Num)
    (htext : (jfield body.text).truthy = false)
    (himg : (jfield body.image_data).truthy = false)
    (hemb : body.embedding = some (JVal.arr v)) :
    (handleJson be t body).2 = [Call.searchIndex v] := by
  have hf : jfield body.embedding = JVal.arr v := by rw [hemb]; rfl
  have htr : (JVal.arr v).truthy = true := rfl
  have ha : (JVal.arr v).asArray = some v := rfl
  simp [handleJson, htext, himg, hf, htr, ha,
    finishSearch_calls, searchWithEmbedding_trace]

/-- Witness for the amended C2 at a concrete three-component vector. -/
theorem embedding_forwarded_without_dimension_check_witness :
    (handleJson beOK 0
        { text := none, image_data := none,
          embedding := some (JVal.arr [1, 2, 3]) }).2 =
      [Call.searchIndex [1, 2, 3]] :=
  embedding_forwarded_without_dimension_check beOK 0
    { text := none, image_data := none, embedding := some (JVal.arr [1, 2, 3]) }
    [1, 2, 3] rfl rfl rfl

/-- C3: whenever the embedding step of the image or text pipeline fails —
the service call throws (timeout, HTTP error, network error) or returns a
body without an embedding — the pipeline returns a failure response carrying
an error message, and the similarity index is never queried: the trace holds
no search call. -/
theorem embedding_failure_skips_index
    (be : Backend) (t : Nat) (img txt : String)
    (himg : embedStepFailed (callPythonService API_TIMEOUT (be.embedImage img)).1)
    (htxt : embedStepFailed (callPythonService API_TIMEOUT (be.embedText txt)).1) :
    ((searchWithImage be t img).1.success = false ∧
      (searchWithImage be t img).1.error.isSome = true ∧
      noSearchCalls (searchWithImage be t img).2 = true) ∧
    ((searchWithText be t txt).1.success = false ∧
      (searchWithText be t txt).1.error.isSome = true ∧
      noSearchCalls (searchWithText be t txt).2 = true) := by
  constructor
  · unfold searchWithImage
    rcases hc : callPythonService API_TIMEOUT (be.embedImage img) with ⟨r, d⟩
    rw [hc] at himg
    cases r with
    | error e =>
        simp [failureResponse, noSearchCalls, isSearchCall]
    | ok er =>
        have hn : er.embedding = none := himg
        simp [hn, failureResponse, noSearchCalls, isSearchCall]
  · unfold searchWithText
    rcases hc : callPythonService API_TIMEOUT (be.embedText txt) with ⟨r, d⟩
    rw [hc] at htxt
    cases r with
    | error e =>
        simp [failureResponse, noSearchCalls, isSearchCall]
    | ok er =>
        have hn : er.embedding = none := htxt
        simp [hn, failureResponse, noSearchCalls, isSearchCall]

/-- Witness for C3 at a backend whose embedding endpoints throw a network
error. -/
theorem embedding_failure_skips_index_witness :
    ((searchWithImage embedFailBackend 0 "img").1.success = false ∧
      (searchWithImage embedFailBackend 0 "img").1.error.isSome = true ∧
      noSearchCalls (searchWithImage embedFailBackend 0 "img").2 = true) ∧
    ((searchWithText embedFailBackend 0 "txt").1.success = false ∧
      (searchWithText embedFailBackend 0 "txt").1.error.isSome = true ∧
      noSearchCalls (searchWithText embedFailBackend 0 "txt").2 = true) :=
  embedding_failure_skips_index embedFailBackend 0 "img" "txt" trivial trivial

/-- C4: on every successful search — image, text, or raw embedding pipeline
alike — the route maps the backend tuples elementwise, in the order the
index returned them: the output has the same number of records, the i-th
record's id is the i-th tuple's index rendered as a string, and the i-th
record's similarity is the i-th tuple's similarity (stated as map equalities,
which force the positionwise correspondence).  The records carry no explicit
rank field, so rank is purely positional: the record at 0-based position i is
the record of rank i + 1, whence the first record has rank 1 and rank
increases by exactly 1 along the list. -/
theorem results_mirror_index_order
    (be : Backend) (t : Nat) (img txt : String) (v : List Num) :
    (∀ embI srI rsI, (be.embedImage img).duration < API_TIMEOUT →
      (be.embedImage img).outcome = FetchOutcome.ok { embedding := some embI } →
      (be.searchIndex embI).duration < API_TIMEOUT →
      (be.searchIndex embI).outcome = FetchOutcome.ok srI →
      srI.results = some rsI →
      (searchWithImage be t img).1.success = true ∧
      (searchWithImage be t img).1.results.length = rsI.length ∧
      (searchWithImage be t img).1.results.map SearchResult.id = rsI.map pyId ∧
      (searchWithImage be t img).1.results.map SearchResult.similarity =
        rsI.map PySearchResult.similarity) ∧
    (∀ embT srT rsT, (be.embedText txt).duration < API_TIMEOUT →
      (be.embedText txt).outcome = FetchOutcome.ok { embedding := some embT } →
      (be.searchIndex embT).duration < API_TIMEOUT →
      (be.searchIndex embT).outcome = FetchOutcome.ok srT →
      srT.results = some rsT →
      (searchWithText be t txt).1.success = true ∧
      (searchWithText be t txt).1.results.length = rsT.length ∧
      (searchWithText be t txt).1.results.map SearchResult.id = rsT.map pyId ∧
      (searchWithText be t txt).1.results.map SearchResult.similarity =
        rsT.map PySearchResult.similarity) ∧
    (∀ srE rsE, (be.searchIndex v).duration < API_TIMEOUT →
      (be.searchIndex v).outcome = FetchOutcome.ok srE →
      srE.results = some rsE →
      (searchWithEmbedding be t v).1.success = true ∧
      (searchWithEmbedding be t v).1.results.length = rsE.length ∧
      (searchWithEmbedding be t v).1.results.map SearchResult.id = rsE.map pyId ∧
      (searchWithEmbedding be t v).1.results.map SearchResult.similarity =
        rsE.map PySearchResult.similarity) := by
  refine ⟨?_, ?_, ?_⟩
  · intro embI srI rsI h1 h2 h3 h4 h5
    have hcall1 : callPythonService API_TIMEOUT (be.embedImage img) =
        (Except.ok { embedding := some embI }, (be.embedImage img).duration) := by
      unfold callPythonService
      rw [if_neg (Nat.not_le_of_lt h1), h2]
    have hcall2 : callPythonService API_TIMEOUT (be.searchIndex embI) =
        (Except.ok srI, (be.searchIndex embI).duration) := by
      unfold callPythonService
      rw [if_neg (Nat.not_le_of_lt h3), h4]
    unfold searchWithImage
    rw [hcall1]
    dsimp only
    rw [hcall2]
    dsimp only
    rw [h5]
    refine ⟨rfl, ?_, ?_, ?_⟩
    · simp [mapResults]
    · simp [mapResults, List.map_map, pyId]
    · simp [mapResults, List.map_map]
  · intro embT srT rsT h1 h2 h3 h4 h5
    have hcall1 : callPythonService API_TIMEOUT (be.embedText txt) =
        (Except.ok { embedding := some embT }, (be.embedText txt).duration) := by
      unfold callPythonService
      rw [if_neg (Nat.not_le_of_lt h1), h2]
    have hcall2 : callPythonService API_TIMEOUT (be.searchIndex embT) =
        (Except.ok srT, (be.searchIndex embT).duration) := by
      unfold callPythonService
      rw [if_neg (Nat.not_le_of_lt h3), h4]
    unfold searchWithText
    rw [hcall1]
    dsimp only
    rw [hcall2]
    dsimp only
    rw [h5]
    refine ⟨rfl, ?_, ?_, ?_⟩
    · simp [mapResults]
    · simp [mapResults, List.map_map, pyId]
    · simp [mapResults, List.map_map]
  · intro srE rsE h1 h2 h3
    have hcall : callPythonService API_TIMEOUT (be.searchIndex v) =
        (Except.ok srE, (be.searchIndex v).duration) := by
      unfold callPythonService
      rw [if_neg (Nat.not_le_of_lt h1), h2]
    unfold searchWithEmbedding
    rw [hcall]
    dsimp only
    rw [h3]
    refine ⟨rfl, ?_, ?_, ?_⟩
    · simp [mapResults]
    · simp [mapResults, List.map_map, pyId]
    · simp [mapResults, List.map_map]

/-- Witness for C4 at the healthy oracle, exercising all three pipelines;
its index answers every query with the single tuple (index 0, cat.jpg,
similarity 9). -/
theorem results_mirror_index_order_witness :
    ((searchWithImage beOK 0 "img").1.success = true ∧
      (searchWithImage beOK 0 "img").1.results.length =
        [({ index := 0, filename := "cat.jpg", similarity := 9 } : PySearchResult)].length ∧
      (searchWithImage beOK 0 "img").1.results.map SearchResult.id =
        [({ index := 0, filename := "cat.jpg", similarity := 9 } : PySearchResult)].map pyId ∧
      (searchWithImage beOK 0 "img").1.results.map SearchResult.similarity =
        [({ index := 0, filename := "cat.jpg", similarity := 9 } : PySearchResult)].map
          PySearchResult.similarity) ∧
    ((searchWithText beOK 0 "txt").1.success = true ∧
      (searchWithText beOK 0 "txt").1.results.length =
        [({ index := 0, filename := "cat.jpg", similarity := 9 } : PySearchResult)].length ∧
      (searchWithText beOK 0 "txt").1.results.map SearchResult.id =
        [({ index := 0, filename := "cat.jpg", similarity := 9 } : PySearchResult)].map pyId ∧
      (searchWithText beOK 0 "txt").1.results.map SearchResult.similarity =
        [({ index := 0, filename := "cat.jpg", similarity := 9 } : PySearchResult)].map
          PySearchResult.similarity) ∧
    ((searchWithEmbedding beOK 0 [1, 2]).1.success = true ∧
      (searchWithEmbedding beOK 0 [1, 2]).1.results.length =
        [({ index := 0, filename := "cat.jpg", similarity := 9 } : PySearchResult)].length ∧
      (searchWithEmbedding beOK 0 [1, 2]).1.results.map SearchResult.id =
        [({ index := 0, filename := "cat.jpg", similarity := 9 } : PySearchResult)].map pyId ∧
      (searchWithEmbedding beOK 0 [1, 2]).1.results.map SearchResult.similarity =
        [({ index := 0, filename := "cat.jpg", similarity := 9 } : PySearchResult)].map
          PySearchResult.similarity) :=
  ⟨(results_mirror_index_order beOK 0 "img" "txt" [1, 2]).1 [1, 2]
      { results := some [{ index := 0, filename := "cat.jpg", similarity := 9 }]
        total_results := 1 }
      [{ index := 0, filename := "cat.jpg", similarity := 9 }]
      (by decide) rfl (by decide) rfl rfl,
   (results_mirror_index_order beOK 0 "img" "txt" [1, 2]).2.1 [3, 4]
      { results := some [{ index := 0, filename := "cat.jpg", similarity := 9 }]
        total_results := 1 }
      [{ index := 0, filename := "cat.jpg", similarity := 9 }]
      (by decide) rfl (by decide) rfl rfl,
   (results_mirror_index_order beOK 0 "img" "txt" [1, 2]).2.2
      { results := some [{ index := 0, filename := "cat.jpg", similarity := 9 }]
        total_results := 1 }
      [{ index := 0, filename := "cat.jpg", similarity := 9 }]
      (by decide) rfl rfl⟩

/-- C5: input validation runs before any embedding request.  A JSON text
query longer than 1000 characters, a multipart upload larger than
MAX_FILE_SIZE, and a multipart upload whose MIME type is outside the
JPEG/PNG/WebP allow-list are each answered with HTTP 400 and an empty call
trace: no request to the Python service is ever issued for them. -/
theorem oversize_inputs_rejected_before_embedding
    (be : Backend) (t : Nat) :
    (∀ body s, body.text = some (JVal.str s) → 1000 < s.length →
      (handleJson be t body).1.status = 400 ∧ (handleJson be t body).2 = []) ∧
    (∀ f : FileData, MAX_FILE_SIZE < f.size →
      (handleMultipart be t (some f)).1.status = 400 ∧
      (handleMultipart be t (some f)).2 = []) ∧
    (∀ f : FileData, f.mime ∉ ALLOWED_IMAGE_TYPES →
      (handleMultipart be t (some f)).1.status = 400 ∧
      (handleMultipart be t (some f)).2 = []) := by
  refine ⟨?_, ?_, ?_⟩
  · intro body s htext hlen
    have hf : jfield body.text = JVal.str s := by rw [htext]; rfl
    have h0 : s ≠ "" := by
      intro h
      subst h
      have hz : ("" : String).length = 0 := rfl
      omega
    have htr : (JVal.str s).truthy = true := by simp [JVal.truthy, h0]
    by_cases hz : (jsTrim s).length = 0
    · simp [handleJson, hf, htr, JVal.isStr, JVal.asString, hz]
    · simp [handleJson, hf, htr, JVal.isStr, JVal.asString, hz, hlen]
  · intro f hsz
    simp [handleMultipart, validateImageFile, hsz]
  · intro f hmime
    by_cases hsz : MAX_FILE_SIZE < f.size
    · simp [handleMultipart, validateImageFile, hsz]
    · simp [handleMultipart, validateImageFile, hsz, hmime]

/-- Witness for C5 at a 1001-character text, an oversize upload and a GIF
upload. -/
theorem oversize_inputs_rejected_before_embedding_witness :
    ((handleJson beOK 0
        { text := some (JVal.str longText), image_data := none,
          embedding := none }).1.status = 400 ∧
      (handleJson beOK 0
        { text := some (JVal.str longText), image_data := none,
          embedding := none }).2 = []) ∧
    ((handleMultipart beOK 0 (some bigFile)).1.status = 400 ∧
      (handleMultipart beOK 0 (some bigFile)).2 = []) ∧
    ((handleMultipart beOK 0 (some badMimeFile)).1.status = 400 ∧
      (handleMultipart beOK 0 (some badMimeFile)).2 = []) :=
  ⟨(oversize_inputs_rejected_before_embedding beOK 0).1
      { text := some (JVal.str longText), image_data := none, embedding := none }
      longText rfl (by decide),
   (oversize_inputs_rejected_before_embedding beOK 0).2.1 bigFile (by decide),
   (oversize_inputs_rejected_before_embedding beOK 0).2.2 badMimeFile (by decide)⟩

theorem callPythonService_error_ne_empty {α : Type} (timeout : Nat) (c : ServiceCall α)
    (hc : cleanCall c) (m : String)
    (h : (callPythonService timeout c).1 = Except.error m) : m ≠ "" := by
  unfold callPythonService at h
  split at h
  · simp at h
    subst h
    decide
  · cases ho : c.outcome with
    | ok v =>
        rw [ho] at h
        simp at h
    | httpError s st b =>
        rw [ho] at h
        simp at h
        subst h
        intro he
        have hlen := congrArg String.length he
        simp only [String.length_append] at hlen
        have hp : 0 < ("Python service error: " : String).length := by decide
        have h0 : ("" : String).length = 0 := rfl
        omega
    | netError mm =>
        rw [ho] at h
        simp at h
        subst h
        simpa [cleanCall, ho] using hc

theorem searchWithEmbedding_failure_shape
    (be : Backend) (t : Nat) (v : List Num)
    (hc : cleanCall (be.searchIndex v))
    (hf : (searchWithEmbedding be t v).1.success = false) :
    (searchWithEmbedding be t v).1.results = [] ∧
    (searchWithEmbedding be t v).1.totalResults = 0 ∧
    (searchWithEmbedding be t v).1.error ≠ none ∧
    (searchWithEmbedding be t v).1.error ≠ some "" := by
  rcases hcall : callPythonService API_TIMEOUT (be.searchIndex v) with ⟨r, d⟩
  unfold searchWithEmbedding at hf ⊢
  rw [hcall] at hf ⊢
  cases r with
  | error e =>
      have he : e ≠ "" :=
        callPythonService_error_ne_empty API_TIMEOUT (be.searchIndex v) hc e (by rw [hcall])
      simp [failureResponse, he]
  | ok sr => simp at hf

theorem searchWithImage_failure_shape
    (be : Backend) (t : Nat) (img : String)
    (hce : cleanCall (be.embedImage img))
    (hcs : ∀ v, cleanCall (be.searchIndex v))
    (hf : (searchWithImage be t img).1.success = false) :
    (searchWithImage be t img).1.results = [] ∧
    (searchWithImage be t img).1.totalResults = 0 ∧
    (searchWithImage be t img).1.error ≠ none ∧
    (searchWithImage be t img).1.error ≠ some "" := by
  rcases hcall : callPythonService API_TIMEOUT (be.embedImage img) with ⟨r, d⟩
  unfold searchWithImage at hf ⊢
  rw [hcall] at hf ⊢
  cases r with
  | error e =>
      have he : e ≠ "" :=
        callPythonService_error_ne_empty API_TIMEOUT (be.embedImage img) hce e (by rw [hcall])
      simp [failureResponse, he]
  | ok er =>
      dsimp only at hf ⊢
      cases hm : er.embedding with
      | none =>
          simp [failureResponse]
      | some emb =>
          rw [hm] at hf
          dsimp only at hf
          rcases hcall2 : callPythonService API_TIMEOUT (be.searchIndex emb) with ⟨r2, d2⟩
          rw [hcall2] at hf
          cases r2 with
          | error e2 =>
              have he2 : e2 ≠ "" :=
                callPythonService_error_ne_empty API_TIMEOUT (be.searchIndex emb) (hcs emb) e2
                  (by rw [hcall2])
              simp [hcall2, failureResponse, he2]
          | ok sr => simp at hf

theorem searchWithText_failure_shape
    (be : Backend) (t : Nat) (txt : String)
    (hce : cleanCall (be.embedText txt))
    (hcs : ∀ v, cleanCall (be.searchIndex v))
    (hf : (searchWithText be t txt).1.success = false) :
    (searchWithText be t txt).1.results = [] ∧
    (searchWithText be t txt).1.totalResults = 0 ∧
    (searchWithText be t txt).1.error ≠ none ∧
    (searchWithText be t txt).1.error ≠ some "" := by
  rcases hcall : callPythonService API_TIMEOUT (be.embedText txt) with ⟨r, d⟩
  unfold searchWithText at hf ⊢
  rw [hcall] at hf ⊢
  cases r with
  | error e =>
      have he : e ≠ "" :=
        callPythonService_error_ne_empty API_TIMEOUT (be.embedText txt) hce e (by rw [hcall])
      simp [failureResponse, he]
  | ok er =>
      dsimp only at hf ⊢
      cases hm : er.embedding with
      | none =>
          simp [failureResponse]
      | some emb =>
          rw [hm] at hf
          dsimp only at hf
          rcases hcall2 : callPythonService API_TIMEOUT (be.searchIndex emb) with ⟨r2, d2⟩
          rw [hcall2] at hf
          cases r2 with
          | error e2 =>
              have he2 : e2 ≠ "" :=
                callPythonService_error_ne_empty API_TIMEOUT (be.searchIndex emb) (hcs emb) e2
                  (by rw [hcall2])
              simp [hcall2, failureResponse, he2]
          | ok sr => simp at hf

theorem searchWithImage_single_shot (be : Backend) (t : Nat) (img : String) :
    countEmbedCalls (searchWithImage be t img).2 ≤ 1 ∧
    countSearchCalls (searchWithImage be t img).2 ≤ 1 := by
  unfold searchWithImage
  rcases hcall : callPythonService API_TIMEOUT (be.embedImage img) with ⟨r, d⟩
  cases r with
  | error e => simp [countEmbedCalls, countSearchCalls, isEmbedCall, isSearchCall]
  | ok er =>
      dsimp only
      cases hm : er.embedding with
      | none => simp [countEmbedCalls, countSearchCalls, isEmbedCall, isSearchCall]
      | some emb =>
          rcases hcall2 : callPythonService API_TIMEOUT (be.searchIndex emb) with ⟨r2, d2⟩
          cases r2 <;>
            simp [hcall2, countEmbedCalls, countSearchCalls, isEmbedCall, isSearchCall]

theorem searchWithText_single_shot (be : Backend) (t : Nat) (txt : String) :
    countEmbedCalls (searchWithText be t txt).2 ≤ 1 ∧
    countSearchCalls (searchWithText be t txt).2 ≤ 1 := by
  unfold searchWithText
  rcases hcall : callPythonService API_TIMEOUT (be.embedText txt) with ⟨r, d⟩
  cases r with
  | error e => simp [countEmbedCalls, countSearchCalls, isEmbedCall, isSearchCall]
  | ok er =>
      dsimp only
      cases hm : er.embedding with
      | none => simp [countEmbedCalls, countSearchCalls, isEmbedCall, isSearchCall]
      | some emb =>
          rcases hcall2 : callPythonService API_TIMEOUT (be.searchIndex emb) with ⟨r2, d2⟩
          cases r2 <;>
            simp [hcall2, countEmbedCalls, countSearchCalls, isEmbedCall, isSearchCall]

theorem searchWithEmbedding_single_shot (be : Backend) (t : Nat) (v : List Num) :
    countEmbedCalls (searchWithEmbedding be t v).2 ≤ 1 ∧
    countSearchCalls (searchWithEmbedding be t v).2 ≤ 1 := by
  rw [searchWithEmbedding_trace]
  constructor <;> simp [countEmbedCalls, countSearchCalls, isEmbedCall, isSearchCall]

/-- C6: failing searches return a tagged failure — success false, empty
result list, totalResults zero, and an error message that is present and
non-empty (under the mild hypothesis that the oracle's own thrown error
messages are non-empty, as every message the route itself builds is) — and no
retry happens anywhere: each pipeline issues at most one embedding call and
at most one index-search call. -/
theorem failures_are_tagged_and_single_shot
    (be : Backend) (t : Nat) (img txt : String) (v : List Num)
    (hclean : cleanBackend be)
    (hfi : (searchWithImage be t img).1.success = false)
    (hft : (searchWithText be t txt).1.success = false)
    (hfe : (searchWithEmbedding be t v).1.success = false) :
    ((searchWithImage be t img).1.results = [] ∧
      (searchWithImage be t img).1.totalResults = 0 ∧
      (searchWithImage be t img).1.error ≠ none ∧
      (searchWithImage be t img).1.error ≠ some "" ∧
      countEmbedCalls (searchWithImage be t img).2 ≤ 1 ∧
      countSearchCalls (searchWithImage be t img).2 ≤ 1) ∧
    ((searchWithText be t txt).1.results = [] ∧
      (searchWithText be t txt).1.totalResults = 0 ∧
      (searchWithText be t txt).1.error ≠ none ∧
      (searchWithText be t txt).1.error ≠ some "" ∧
      countEmbedCalls (searchWithText be t txt).2 ≤ 1 ∧
      countSearchCalls (searchWithText be t txt).2 ≤ 1) ∧
    ((searchWithEmbedding be t v).1.results = [] ∧
      (searchWithEmbedding be t v).1.totalResults = 0 ∧
      (searchWithEmbedding be t v).1.error ≠ none ∧
      (searchWithEmbedding be t v).1.error ≠ some "" ∧
      countEmbedCalls (searchWithEmbedding be t v).2 ≤ 1 ∧
      countSearchCalls (searchWithEmbedding be t v).2 ≤ 1) := by
  obtain ⟨hc1, hc2, hc3⟩ := hclean
  obtain ⟨i1, i2, i3, i4⟩ := searchWithImage_failure_shape be t img (hc1 img) hc3 hfi
  obtain ⟨x1, x2⟩ := searchWithImage_single_shot be t img
  obtain ⟨t1, t2, t3, t4⟩ := searchWithText_failure_shape be t txt (hc2 txt) hc3 hft
  obtain ⟨y1, y2⟩ := searchWithText_single_shot be t txt
  obtain ⟨e1, e2, e3, e4⟩ := searchWithEmbedding_failure_shape be t v (hc3 v) hfe
  obtain ⟨z1, z2⟩ := searchWithEmbedding_single_shot be t v
  exact ⟨⟨i1, i2, i3, i4, x1, x2⟩, ⟨t1, t2, t3, t4, y1, y2⟩, ⟨e1, e2, e3, e4, z1, z2⟩⟩

/-- Witness for C6 at the oracle failing every endpoint with a network
error. -/
theorem failures_are_tagged_and_single_shot_witness :
    ((searchWithImage allFailBackend 0 "img").1.results = [] ∧
      (searchWithImage allFailBackend 0 "img").1.totalResults = 0 ∧
      (searchWithImage allFailBackend 0 "img").1.error ≠ none ∧
      (searchWithImage allFailBackend 0 "img").1.error ≠ some "" ∧
      countEmbedCalls (searchWithImage allFailBackend 0 "img").2 ≤ 1 ∧
      countSearchCalls (searchWithImage allFailBackend 0 "img").2 ≤ 1) ∧
    ((searchWithText allFailBackend 0 "txt").1.results = [] ∧
      (searchWithText allFailBackend 0 "txt").1.totalResults = 0 ∧
      (searchWithText allFailBackend 0 "txt").1.error ≠ none ∧
      (searchWithText allFailBackend 0 "txt").1.error ≠ some "" ∧
      countEmbedCalls (searchWithText allFailBackend 0 "txt").2 ≤ 1 ∧
      countSearchCalls (searchWithText allFailBackend 0 "txt").2 ≤ 1) ∧
    ((searchWithEmbedding allFailBackend 0 [1]).1.results = [] ∧
      (searchWithEmbedding allFailBackend 0 [1]).1.totalResults = 0 ∧
      (searchWithEmbedding allFailBackend 0 [1]).1.error ≠ none ∧
      (searchWithEmbedding allFailBackend 0 [1]).1.error ≠ some "" ∧
      countEmbedCalls (searchWithEmbedding allFailBackend 0 [1]).2 ≤ 1 ∧
      countSearchCalls (searchWithEmbedding allFailBackend 0 [1]).2 ≤ 1) :=
  failures_are_tagged_and_single_shot allFailBackend 0 "img" "txt" [1]
    ⟨fun _ => by show ("boom" : String) ≠ ""; decide,
     fun _ => by show ("boom" : String) ≠ ""; decide,
     fun _ => by show ("boom" : String) ≠ ""; decide⟩
    rfl rfl rfl

theorem string_eq_empty_of_length_zero (s : String) (h : s.length = 0) : s = "" := by
  cases s with
  | mk l =>
      cases l with
      | nil => rfl
      | cons c cs => simp [String.length] at h

/-- C7 counterexample: with both service calls of the image pipeline
finishing in 29999 ms — each strictly under the configured 30000 ms timeout —
the request succeeds after 59998 ms of recorded service time, which exceeds
the configured timeout.  The abort controller bounds each call to the Python
service separately, not the full embed-then-search pipeline, so the total
time of one search request is not bounded by the configured timeout. -/
theorem pipeline_time_exceeds_configured_timeout :
    (searchWithImage slowBackend 0 "img").1.success = true ∧
    (searchWithImage slowBackend 0 "img").1.searchTime = 59998 ∧
    API_TIMEOUT < (searchWithImage slowBackend 0 "img").1.searchTime := by
  decide

/-- C7 amended: the boundary enforces the timeout around each individual
service call rather than around the whole pipeline: every call contributes at
most API_TIMEOUT to the recorded search time, so one request is bounded by
2 * API_TIMEOUT (embed plus search), not by API_TIMEOUT.  A call that
reaches the timeout is reported as "Request timeout", distinct from the
embedding-failure message "Failed to generate image embedding", so slow
upstream and bad input remain distinguishable. -/
theorem per_call_timeout_bounds_pipeline
    (be : Backend) (t : Nat) (img : String) :
    (searchWithImage be t img).1.searchTime ≤ 2 * API_TIMEOUT ∧
    (API_TIMEOUT ≤ (be.embedImage img).duration →
      (searchWithImage be t img).1.error = some "Request timeout") ∧
    ((be.embedImage img).duration < API_TIMEOUT →
      (be.embedImage img).outcome = FetchOutcome.ok { embedding := none } →
      (searchWithImage be t img).1.error = some "Failed to generate image embedding") := by
  refine ⟨?_, ?_, ?_⟩
  · have h1 := callPythonService_elapsed_le API_TIMEOUT (be.embedImage img)
    unfold searchWithImage
    rcases hcall : callPythonService API_TIMEOUT (be.embedImage img) with ⟨r, d⟩
    rw [hcall] at h1
    simp only at h1
    cases r with
    | error e =>
        simp [failureResponse]
        omega
    | ok er =>
        dsimp only
        cases er.embedding with
        | none =>
            simp [failureResponse]
            omega
        | some emb =>
            dsimp only
            have h2 := callPythonService_elapsed_le API_TIMEOUT (be.searchIndex emb)
            rcases hcall2 : callPythonService API_TIMEOUT (be.searchIndex emb) with ⟨r2, d2⟩
            rw [hcall2] at h2
            simp only at h2
            cases r2 <;> simp [hcall2, failureResponse] <;> omega
  · intro h
    have hcall : callPythonService API_TIMEOUT (be.embedImage img) =
        (Except.error "Request timeout", API_TIMEOUT) := by
      unfold callPythonService
      rw [if_pos h]
    unfold searchWithImage
    rw [hcall]
    rfl
  · intro hd ho
    have hcall : callPythonService API_TIMEOUT (be.embedImage img) =
        (Except.ok { embedding := none }, (be.embedImage img).duration) := by
      unfold callPythonService
      rw [if_neg (Nat.not_le_of_lt hd), ho]
    unfold searchWithImage
    rw [hcall]
    rfl

/-- Witness for the amended C7 at a stalled oracle (both timeout reporting
and the 2x bound) and at an oracle that returns no embedding (the distinct
embedding-failure message). -/
theorem per_call_timeout_bounds_pipeline_witness :
    ((searchWithImage stalledBackend 0 "img").1.searchTime ≤ 2 * API_TIMEOUT ∧
      (searchWithImage stalledBackend 0 "img").1.error = some "Request timeout") ∧
    (searchWithImage noEmbedBackend 0 "img").1.error =
      some "Failed to generate image embedding" :=
  ⟨⟨(per_call_timeout_bounds_pipeline stalledBackend 0 "img").1,
    (per_call_timeout_bounds_pipeline stalledBackend 0 "img").2.1 (by decide)⟩,
   (per_call_timeout_bounds_pipeline noEmbedBackend 0 "img").2.2 (by decide) rfl⟩

/-- C8 counterexample: the upstream HTTP error body is interpolated verbatim
into the client-visible error message.  With a backend whose index search
fails with an HTTP 500 whose body names the server-side path /app/main.py,
the failure the client receives contains that path: upstream stack traces and
file paths are not stripped. -/
theorem upstream_error_body_reaches_client :
    (searchWithEmbedding leakyBackend 0 [1]).1.error =
      some "Python service error: 500 Internal Server Error - Traceback, File /app/main.py line 42" ∧
    containsStr
      "Python service error: 500 Internal Server Error - Traceback, File /app/main.py line 42"
      "/app/main.py" := by
  constructor
  · rfl
  · decide

/-- C8 amended: the boundary attaches no stack trace or path of its own —
on an upstream HTTP error the client-visible message is exactly the fixed
prefix "Python service error: " followed by the upstream status, status text
and response body, the body forwarded verbatim.  Hence the message is free of
server-internal content exactly when the upstream error response is; nothing
guarantees the upstream body is clean. -/
theorem upstream_error_propagated_verbatim
    (be : Backend) (t : Nat) (v : List Num) (s : Nat) (st b : String)
    (hd : (be.searchIndex v).duration < API_TIMEOUT)
    (ho : (be.searchIndex v).outcome = FetchOutcome.httpError s st b) :
    (searchWithEmbedding be t v).1.error =
      some ("Python service error: " ++ toString s ++ " " ++ st ++ " - " ++ b) := by
  have hcall : callPythonService API_TIMEOUT (be.searchIndex v) =
      (Except.error ("Python service error: " ++ toString s ++ " " ++ st ++ " - " ++ b),
       (be.searchIndex v).duration) := by
    unfold callPythonService
    rw [if_neg (Nat.not_le_of_lt hd), ho]
  unfold searchWithEmbedding
  rw [hcall]
  rfl

/-- Witness for the amended C8 at the leaky oracle. -/
theorem upstream_error_propagated_verbatim_witness :
    (searchWithEmbedding leakyBackend 0 [2]).1.error =
      some ("Python service error: " ++ toString 500 ++ " " ++ "Internal Server Error" ++
        " - " ++ "Traceback, File /app/main.py line 42") :=
  upstream_error_propagated_verbatim leakyBackend 0 [2] 500 "Internal Server Error"
    "Traceback, File /app/main.py line 42" (by decide) rfl

theorem searchWithText_stable_clock
    (be : Backend) (t1 t2 : Nat) (q : String) :
    (searchWithText be t1 q).1.results.map stripTime =
      (searchWithText be t2 q).1.results.map stripTime ∧
    (searchWithText be t1 q).1.success = (searchWithText be t2 q).1.success ∧
    (searchWithText be t1 q).1.totalResults = (searchWithText be t2 q).1.totalResults ∧
    (searchWithText be t1 q).1.error = (searchWithText be t2 q).1.error ∧
    (searchWithText be t1 q).2 = (searchWithText be t2 q).2 := by
  unfold searchWithText
  rcases hc : callPythonService API_TIMEOUT (be.embedText q) with ⟨r, d⟩
  cases r with
  | error e => exact ⟨rfl, rfl, rfl, rfl, rfl⟩
  | ok er =>
      dsimp only
      cases er.embedding with
      | none => exact ⟨rfl, rfl, rfl, rfl, rfl⟩
      | some emb =>
          dsimp only
          rcases hc2 : callPythonService API_TIMEOUT (be.searchIndex emb) with ⟨r2, d2⟩
          cases r2 with
          | error e2 => exact ⟨rfl, rfl, rfl, rfl, rfl⟩
          | ok sr =>
              refine ⟨?_, rfl, rfl, rfl, rfl⟩
              simp [mapResults, List.map_map, stripTime]

theorem searchWithImage_stable_clock
    (be : Backend) (t1 t2 : Nat) (img : String) :
    (searchWithImage be t1 img).1.results.map stripTime =
      (searchWithImage be t2 img).1.results.map stripTime ∧
    (searchWithImage be t1 img).1.success = (searchWithImage be t2 img).1.success ∧
    (searchWithImage be t1 img).1.totalResults = (searchWithImage be t2 img).1.totalResults ∧
    (searchWithImage be t1 img).1.error = (searchWithImage be t2 img).1.error ∧
    (searchWithImage be t1 img).2 = (searchWithImage be t2 img).2 := by
  unfold searchWithImage
  rcases hc : callPythonService API_TIMEOUT (be.embedImage img) with ⟨r, d⟩
  cases r with
  | error e => exact ⟨rfl, rfl, rfl, rfl, rfl⟩
  | ok er =>
      dsimp only
      cases er.embedding with
      | none => exact ⟨rfl, rfl, rfl, rfl, rfl⟩
      | some emb =>
          dsimp only
          rcases hc2 : callPythonService API_TIMEOUT (be.searchIndex emb) with ⟨r2, d2⟩
          cases r2 with
          | error e2 => exact ⟨rfl, rfl, rfl, rfl, rfl⟩
          | ok sr =>
              refine ⟨?_, rfl, rfl, rfl, rfl⟩
              simp [mapResults, List.map_map, stripTime]

theorem searchWithEmbedding_stable_clock
    (be : Backend) (t1 t2 : Nat) (v : List Num) :
    (searchWithEmbedding be t1 v).1.results.map stripTime =
      (searchWithEmbedding be t2 v).1.results.map stripTime ∧
    (searchWithEmbedding be t1 v).1.success = (searchWithEmbedding be t2 v).1.success ∧
    (searchWithEmbedding be t1 v).1.totalResults =
      (searchWithEmbedding be t2 v).1.totalResults ∧
    (searchWithEmbedding be t1 v).1.error = (searchWithEmbedding be t2 v).1.error ∧
    (searchWithEmbedding be t1 v).2 = (searchWithEmbedding be t2 v).2 := by
  unfold searchWithEmbedding
  rcases hc : callPythonService API_TIMEOUT (be.searchIndex v) with ⟨r, d⟩
  cases r with
  | error e => exact ⟨rfl, rfl, rfl, rfl, rfl⟩
  | ok sr =>
      refine ⟨?_, rfl, rfl, rfl, rfl⟩
      simp [mapResults, List.map_map, stripTime]

/-- C9 counterexample: repeating the identical text query against the same
unchanged oracle at two different clock instants yields result lists that are
NOT equal: each run stamps metadata.uploadedAt with the current time, so the
full records differ between runs even though ids, order and similarities
agree. -/
theorem rerun_at_later_clock_differs :
    (searchWithText beOK 0 "cat").1.results ≠ (searchWithText beOK 1 "cat").1.results := by
  decide

/-- C9 amended: repeating the identical query against an unchanged backend
yields identical ranked output up to the clock: the success flag,
totalResults, error, the issued service calls, and every record projected to
(id, imageUrl, similarity, filename, size) coincide between the two runs for
all three pipelines; only the metadata.uploadedAt stamp (and searchTime)
depend on when the request runs, so the full records are equal exactly when
the clock readings coincide. -/
theorem identical_query_stable_up_to_clock
    (be : Backend) (t1 t2 : Nat) (q img : String) (v : List Num) :
    ((searchWithText be t1 q).1.results.map stripTime =
        (searchWithText be t2 q).1.results.map stripTime ∧
      (searchWithText be t1 q).1.success = (searchWithText be t2 q).1.success ∧
      (searchWithText be t1 q).1.totalResults = (searchWithText be t2 q).1.totalResults ∧
      (searchWithText be t1 q).1.error = (searchWithText be t2 q).1.error ∧
      (searchWithText be t1 q).2 = (searchWithText be t2 q).2) ∧
    ((searchWithImage be t1 img).1.results.map stripTime =
        (searchWithImage be t2 img).1.results.map stripTime ∧
      (searchWithImage be t1 img).1.success = (searchWithImage be t2 img).1.success ∧
      (searchWithImage be t1 img).1.totalResults =
        (searchWithImage be t2 img).1.totalResults ∧
      (searchWithImage be t1 img).1.error = (searchWithImage be t2 img).1.error ∧
      (searchWithImage be t1 img).2 = (searchWithImage be t2 img).2) ∧
    ((searchWithEmbedding be t1 v).1.results.map stripTime =
        (searchWithEmbedding be t2 v).1.results.map stripTime ∧
      (searchWithEmbedding be t1 v).1.success = (searchWithEmbedding be t2 v).1.success ∧
      (searchWithEmbedding be t1 v).1.totalResults =
        (searchWithEmbedding be t2 v).1.totalResults ∧
      (searchWithEmbedding be t1 v).1.error = (searchWithEmbedding be t2 v).1.error ∧
      (searchWithEmbedding be t1 v).2 = (searchWithEmbedding be t2 v).2) :=
  ⟨searchWithText_stable_clock be t1 t2 q,
   searchWithImage_stable_clock be t1 t2 img,
   searchWithEmbedding_stable_clock be t1 t2 v⟩

theorem searchWithText_queryType (be : Backend) (t : Nat) (q : String) :
    (searchWithText be t q).1.queryType = "text" := by
  unfold searchWithText
  rcases hc : callPythonService API_TIMEOUT (be.embedText q) with ⟨r, d⟩
  cases r with
  | error e => rfl
  | ok er =>
      dsimp only
      cases er.embedding with
      | none => rfl
      | some emb =>
          dsimp only
          rcases hc2 : callPythonService API_TIMEOUT (be.searchIndex emb) with ⟨r2, d2⟩
          cases r2 <;> rfl

theorem searchWithImage_queryType (be : Backend) (t : Nat) (img : String) :
    (searchWithImage be t img).1.queryType = "image" := by
  unfold searchWithImage
  rcases hc : callPythonService API_TIMEOUT (be.embedImage img) with ⟨r, d⟩
  cases r with
  | error e => rfl
  | ok er =>
      dsimp only
      cases er.embedding with
      | none => rfl
      | some emb =>
          dsimp only
          rcases hc2 : callPythonService API_TIMEOUT (be.searchIndex emb) with ⟨r2, d2⟩
          cases r2 <;> rfl

theorem searchWithEmbedding_queryType (be : Backend) (t : Nat) (v : List Num) :
    (searchWithEmbedding be t v).1.queryType = "embedding" := by
  unfold searchWithEmbedding
  rcases hc : callPythonService API_TIMEOUT (be.searchIndex v) with ⟨r, d⟩
  cases r <;> rfl

theorem respQueryType_finishSearch (p : SearchResponse × List Call) :
    respQueryType (finishSearch p).1 = some p.1.queryType := by
  unfold finishSearch
  split <;> rfl

/-- C10 counterexample: a JSON body populating two of the three fields — a
whitespace-only (hence truthy) text and a well-formed embedding array — is
rejected with HTTP 400 by the text branch's validation: NO search pipeline is
executed (the service-call trace is empty), no queryType is reported, and no
fallback to the populated embedding field happens.  This contradicts the
claim that a body populating more than one field always executes exactly one
pipeline. -/
theorem populated_fields_but_no_pipeline :
    (handleJson beOK 0
        { text := some (JVal.str " "), image_data := none,
          embedding := some (JVal.arr [1, 2, 3]) }).1.status = 400 ∧
    (handleJson beOK 0
        { text := some (JVal.str " "), image_data := none,
          embedding := some (JVal.arr [1, 2, 3]) }).2 = [] ∧
    respQueryType
      (handleJson beOK 0
        { text := some (JVal.str " "), image_data := none,
          embedding := some (JVal.arr [1, 2, 3]) }).1 = none := by
  decide

/-- C10 amended: the handler dispatches on the first JavaScript-truthy field
in the fixed order text, image_data, embedding.  When the selected variant
passes its own validation, exactly that variant's pipeline executes (its
calls are exactly the handler's calls) and the reported queryType matches the
selection, regardless of which later fields are also populated; when the
selected variant fails validation the request is rejected with HTTP 400 and
no pipeline runs, with no fallback to later populated fields; and a body in
which none of the three fields is truthy is rejected with HTTP 400 with no
service call. -/
theorem json_dispatch_priority
    (be : Backend) (t : Nat) (body : JsonBody) :
    (∀ s, body.text = some (JVal.str s) → s ≠ "" → jsTrim s ≠ "" → s.length ≤ 1000 →
      (handleJson be t body).2 = (searchWithText be t (jsTrim s)).2 ∧
      respQueryType (handleJson be t body).1 = some "text") ∧
    ((jfield body.text).truthy = false →
      ∀ dta, body.image_data = some (JVal.str dta) → dta ≠ "" →
        (handleJson be t body).2 = (searchWithImage be t dta).2 ∧
        respQueryType (handleJson be t body).1 = some "image") ∧
    ((jfield body.text).truthy = false → (jfield body.image_data).truthy = false →
      ∀ v, body.embedding = some (JVal.arr v) →
        (handleJson be t body).2 = (searchWithEmbedding be t v).2 ∧
        respQueryType (handleJson be t body).1 = some "embedding") ∧
    ((jfield body.text).truthy = false → (jfield body.image_data).truthy = false →
      (jfield body.embedding).truthy = false →
      (handleJson be t body).1.status = 400 ∧ (handleJson be t body).2 = []) := by
  refine ⟨?_, ?_, ?_, ?_⟩
  · intro s htext h0 htr hlen
    have hf : jfield body.text = JVal.str s := by rw [htext]; rfl
    have htru : (JVal.str s).truthy = true := by simp [JVal.truthy, h0]
    have hnz : ¬(jsTrim s).length = 0 := by
      intro h
      exact htr (string_eq_empty_of_length_zero (jsTrim s) h)
    have hnl : ¬1000 < s.length := by omega
    simp [handleJson, hf, htru, JVal.isStr, JVal.asString, hnz, hnl,
      finishSearch_calls, respQueryType_finishSearch, searchWithText_queryType]
  · intro htf dta himg h0
    have hf : jfield body.image_data = JVal.str dta := by rw [himg]; rfl
    have htru : (JVal.str dta).truthy = true := by simp [JVal.truthy, h0]
    simp [handleJson, htf, hf, htru, JVal.isStr, JVal.asString,
      finishSearch_calls, respQueryType_finishSearch, searchWithImage_queryType]
  · intro htf hif v hemb
    have hf : jfield body.embedding = JVal.arr v := by rw [hemb]; rfl
    have htru : (JVal.arr v).truthy = true := rfl
    have ha : (JVal.arr v).asArray = some v := rfl
    simp [handleJson, htf, hif, hf, htru, ha,
      finishSearch_calls, respQueryType_finishSearch, searchWithEmbedding_queryType]
  · intro htf hif hef
    simp [handleJson, htf, hif, hef]

/-- Witness for the amended C10: four concrete bodies, one per branch —
text wins over a populated embedding, image_data wins when text is absent,
embedding runs when it is the only truthy field, and an all-absent body is
rejected. -/
theorem json_dispatch_priority_witness :
    ((handleJson beOK 0
        { text := some (JVal.str "cat"), image_data := some (JVal.str "zzz"),
          embedding := some (JVal.arr [1]) }).2 =
        (searchWithText beOK 0 (jsTrim "cat")).2 ∧
      respQueryType
        (handleJson beOK 0
          { text := some (JVal.str "cat"), image_data := some (JVal.str "zzz"),
            embedding := some (JVal.arr [1]) }).1 = some "text") ∧
    ((handleJson beOK 0
        { text := none, image_data := some (JVal.str "imgdata"),
          embedding := some (JVal.arr [1]) }).2 =
        (searchWithImage beOK 0 "imgdata").2 ∧
      respQueryType
        (handleJson beOK 0
          { text := none, image_data := some (JVal.str "imgdata"),
            embedding := some (JVal.arr [1]) }).1 = some "image") ∧
    ((handleJson beOK 0
        { text := none, image_data := none, embedding := some (JVal.arr [2]) }).2 =
        (searchWithEmbedding beOK 0 [2]).2 ∧
      respQueryType
        (handleJson beOK 0
          { text := none, image_data := none, embedding := some (JVal.arr [2]) }).1 =
        some "embedding") ∧
    ((handleJson beOK 0
        { text := none, image_data := none, embedding := none }).1.status = 400 ∧
      (handleJson beOK 0
        { text := none, image_data := none, embedding := none }).2 = []) :=
  ⟨(json_dispatch_priority beOK 0
      { text := some (JVal.str "cat"), image_data := some (JVal.str "zzz"),
        embedding := some (JVal.arr [1]) }).1 "cat" rfl (by decide) (by decide) (by decide),
   (json_dispatch_priority beOK 0
      { text := none, image_data := some (JVal.str "imgdata"),
        embedding := some (JVal.arr [1]) }).2.1 rfl "imgdata" rfl (by decide),
   (json_dispatch_priority beOK 0
      { text := none, image_data := none, embedding := some (JVal.arr [2]) }).2.2.1
      rfl rfl [2] rfl,
   (json_dispatch_priority beOK 0
      { text := none, image_data := none, embedding := none }).2.2.2 rfl rfl rfl⟩

end ImageSimilarityApp
